import Mathlib

/-!
Verification of the nextcloud-vue repository core logic: the viewport-mode
observer (mobile breakpoint watcher), the color contrast helper of
NcColorPicker, and the NcDialog navigation-collapse flag.

Each definition is a shallow embedding of the corresponding JavaScript
source. Widths are natural numbers (DOM clientWidth is an integer) or
rationals (element sizes from the resize observer). JavaScript runtime
failures (TypeError from destructuring null) are modelled with Except.
-/

namespace NextcloudVue

/-! ## Viewport mode observer (the usemobile mixin source file)

Source:
  const _isMobile = () => document.documentElement.clientWidth < 768
  const state = Vue.observable({ isMobile: _isMobile() })
  const _onResize = () => Vue.set(state, "isMobile", _isMobile())
  window.addEventListener('resize', _onResize)
-/

/-- Embedding of `_isMobile`: the measured client width is under 768. -/
def _isMobile (clientWidth : Nat) : Bool :=
  clientWidth < 768

/-- The observable module state: a single boolean flag. -/
structure ViewportState where
  isMobile : Bool
deriving DecidableEq, Repr

/-- Module-load initialization: `Vue.observable({ isMobile: _isMobile() })`
computed from the width measured at load time. -/
def initialState (clientWidth : Nat) : ViewportState :=
  { isMobile := _isMobile clientWidth }

/-- Embedding of `_onResize`: overwrite the flag with `_isMobile()` for the
width measured during this handler run. -/
def _onResize (clientWidth : Nat) (s : ViewportState) : ViewportState :=
  { s with isMobile := _isMobile clientWidth }

/-- A whole module history: initialization at width `w0` followed by one
resize-handler run per measured width in `ws`. The module registers
`_onResize` as the only writer of the state, so these are all the writes. -/
def runResizes (w0 : Nat) (ws : List Nat) : ViewportState :=
  ws.foldl (fun s w => _onResize w s) (initialState w0)

/-! ## NcDialog navigation collapse

Source (NcDialog setup):
  const \x7b width: dialogWidth \x7d = useElementSize(wrapper, \x7b width: 900 \x7d)
  const isNavigationCollapsed = computed(() => dialogWidth.value < 876)
-/

/-- The default wrapper width used before any measurement is available. -/
def defaultDialogWidth : ℚ := 900

/-- Embedding of `isNavigationCollapsed`: the measured dialog wrapper width
is strictly below 876. -/
def isNavigationCollapsed (dialogWidth : ℚ) : Bool :=
  dialogWidth < 876

/-! ## Claim theorems: viewport observer and dialog collapse -/

/-- C1: the viewport-mode query returns mobile exactly when the measured
width is under 768; in particular 767 is mobile and 768 is not. -/
theorem isMobile_iff_lt_768 :
    (∀ w : Nat, _isMobile w = true ↔ w < 768) ∧
    _isMobile 767 = true ∧ _isMobile 768 = false := by
  refine ⟨fun w => ?_, by decide, by decide⟩
  simp [_isMobile]

/-- C2: the shared flag is computed once at module load from the current
width, every resize-handler run rewrites it to (width measured during that
run < 768), and after any history of resizes it equals that predicate for
the last measured width; the model has no other writer. -/
theorem isMobile_flag_invariant :
    (∀ w0 : Nat, (initialState w0).isMobile = decide (w0 < 768)) ∧
    (∀ (w : Nat) (s : ViewportState), (_onResize w s).isMobile = decide (w < 768)) ∧
    (∀ (w0 w : Nat) (ws : List Nat),
      (runResizes w0 (ws ++ [w])).isMobile = decide (w < 768)) := by
  refine ⟨fun w0 => rfl, fun w s => rfl, fun w0 w ws => ?_⟩
  simp [runResizes, List.foldl_append, _onResize, _isMobile]

/-- C6: the resize handler is idempotent in the measured width: a second run
with the same width leaves the state unchanged (and, being a total function,
raises no error). -/
theorem onResize_idempotent :
    ∀ (w : Nat) (s : ViewportState), _onResize w (_onResize w s) = _onResize w s := by
  intro w s
  rfl

/-- C8: the navigation is collapsed exactly when the measured wrapper width
is strictly below 876; the default width 900 used before any measurement
leaves it uncollapsed. -/
theorem navigationCollapsed_iff :
    (∀ w : ℚ, isNavigationCollapsed w = true ↔ w < 876) ∧
    isNavigationCollapsed defaultDialogWidth = false := by
  refine ⟨fun w => ?_, by decide⟩
  simp [isNavigationCollapsed]

/-! ## NcColorPicker: hex decoding and the contrast helper

Source:
  hexToRGB(hex) \x7b
    const result = /^#?([a-f\d]\x7b2\x7d)([a-f\d]\x7b2\x7d)([a-f\d]\x7b2\x7d)$/i.exec(hex)
    return result ? [parseInt(result[1], 16), ...] : null
  \x7d
  calculateLuma(color) \x7b
    const [red, green, blue] = this.hexToRGB(color)
    return (0.2126 * red + 0.7152 * green + 0.0722 * blue) / 255
  \x7d
  contrastColor() = (calculateLuma(currentColor) > 0.5) ? black : white
-/

/-- A JavaScript runtime error; destructuring null raises a TypeError. -/
inductive JsError
  | typeError
deriving DecidableEq, Repr

/-- The character class `[a-f\d]` of the source regex under the `i` flag:
digits 0-9 (codes 48-57), a-f (97-102) and A-F (65-70). -/
def isHexDigit (c : Char) : Bool :=
  (decide (48 ≤ c.toNat) && decide (c.toNat ≤ 57)) ||
  (decide (97 ≤ c.toNat) && decide (c.toNat ≤ 102)) ||
  (decide (65 ≤ c.toNat) && decide (c.toNat ≤ 70))

/-- The numeric value of one hex digit, as `parseInt(_, 16)` assigns it. -/
def hexVal (c : Char) : Nat :=
  if c.toNat ≤ 57 then c.toNat - 48
  else if 97 ≤ c.toNat then c.toNat - 87
  else c.toNat - 55

/-- The `#?` part of the regex: at most one leading hash is skipped. -/
def stripHash : List Char → List Char
  | '#' :: rest => rest
  | s => s

/-- Embedding of `hexToRGB`: the regex demands an optional hash followed by
exactly three pairs of hex digits; on a match the three channels are the
parsed pairs, otherwise the result is null (`none`). -/
def hexToRGB (hex : String) : Option (Nat × Nat × Nat) :=
  match stripHash hex.data with
  | [c1, c2, c3, c4, c5, c6] =>
    if isHexDigit c1 && isHexDigit c2 && isHexDigit c3 &&
       isHexDigit c4 && isHexDigit c5 && isHexDigit c6 then
      some (16 * hexVal c1 + hexVal c2, 16 * hexVal c3 + hexVal c4,
            16 * hexVal c5 + hexVal c6)
    else none
  | _ => none

/-- Embedding of `calculateLuma`: destructuring the null returned for a
non-matching input raises a TypeError; otherwise the weighted luma of the
decoded channels is returned exactly (rational arithmetic). -/
def calculateLuma (color : String) : Except JsError ℚ :=
  match hexToRGB color with
  | none => Except.error JsError.typeError
  | some (red, green, blue) =>
    Except.ok ((0.2126 * red + 0.7152 * green + 0.0722 * blue) / 255)

/-- Embedding of the `contrastColor` computed property: black for luma above
0.5, white otherwise; an error in `calculateLuma` propagates. -/
def contrastColor (currentColor : String) : Except JsError String :=
  match calculateLuma currentColor with
  | Except.error e => Except.error e
  | Except.ok luma => Except.ok (if luma > 0.5 then "#000000" else "#FFFFFF")

/-- Modelled from the spec: a well-formed hex color string is three or six
hex digits, case-insensitive, with an optional leading hash. This is the
notion of well-formedness the specification states; the repository source
also holds the stricter HEX_REGEX = /^#([a-f0-9]\x7b3\x7d|[a-f0-9]\x7b6\x7d)$/i. -/
def specWellFormedHex (s : String) : Bool :=
  ((stripHash s.data).length == 3 || (stripHash s.data).length == 6) &&
  (stripHash s.data).all isHexDigit

/-- The six-digit restriction of [specWellFormedHex]: what the decoding
regex of `hexToRGB` actually accepts. -/
def specWellFormedHex6 (s : String) : Bool :=
  (stripHash s.data).length == 6 && (stripHash s.data).all isHexDigit

/-! ## Helper lemmas on the hex decoder -/

lemma hexVal_le_15 (c : Char) (h : isHexDigit c = true) : hexVal c ≤ 15 := by
  unfold isHexDigit at h
  simp only [Bool.or_eq_true, Bool.and_eq_true, decide_eq_true_eq] at h
  unfold hexVal
  split
  · omega
  · split <;> omega

lemma hexToRGB_some_elim (s : String) (r g b : Nat) (h : hexToRGB s = some (r, g, b)) :
    ∃ c1 c2 c3 c4 c5 c6,
      stripHash s.data = [c1, c2, c3, c4, c5, c6] ∧
      isHexDigit c1 = true ∧ isHexDigit c2 = true ∧ isHexDigit c3 = true ∧
      isHexDigit c4 = true ∧ isHexDigit c5 = true ∧ isHexDigit c6 = true ∧
      r = 16 * hexVal c1 + hexVal c2 ∧ g = 16 * hexVal c3 + hexVal c4 ∧
      b = 16 * hexVal c5 + hexVal c6 := by
  unfold hexToRGB at h
  obtain ⟨t, ht⟩ : ∃ t, stripHash s.data = t := ⟨_, rfl⟩
  rw [ht] at h
  rcases t with _ | ⟨c1, _ | ⟨c2, _ | ⟨c3, _ | ⟨c4, _ | ⟨c5, _ | ⟨c6, _ | ⟨c7, t⟩⟩⟩⟩⟩⟩⟩ <;>
    try exact Option.noConfusion h
  dsimp only at h
  split at h
  · rename_i hc
    simp only [Bool.and_eq_true] at hc
    obtain ⟨⟨⟨⟨⟨h1, h2⟩, h3⟩, h4⟩, h5⟩, h6⟩ := hc
    have h9 := Option.some.inj h
    simp only [Prod.mk.injEq] at h9
    exact ⟨c1, c2, c3, c4, c5, c6, ht, h1, h2, h3, h4, h5, h6,
      h9.1.symm, h9.2.1.symm, h9.2.2.symm⟩
  · exact Option.noConfusion h

/-! ## Claim theorems: the contrast helper -/

/-- C3 (amended to six-digit inputs): for every hex color the decoder
accepts, the helper computes luma = (0.2126 R + 0.7152 G + 0.0722 B) / 255
over the decoded channels and returns white for luma at most 0.5 and black
above; the four sample colors evaluate as the spec lists them. -/
theorem contrast_rule (s : String) (r g b : Nat) (h : hexToRGB s = some (r, g, b)) :
    calculateLuma s = Except.ok ((0.2126 * (r : ℚ) + 0.7152 * g + 0.0722 * b) / 255) ∧
    ((0.2126 * (r : ℚ) + 0.7152 * g + 0.0722 * b) / 255 ≤ 0.5 →
      contrastColor s = Except.ok "#FFFFFF") ∧
    ((0.2126 * (r : ℚ) + 0.7152 * g + 0.0722 * b) / 255 > 0.5 →
      contrastColor s = Except.ok "#000000") ∧
    contrastColor "#FFFFFF" = Except.ok "#000000" ∧
    contrastColor "#000000" = Except.ok "#FFFFFF" ∧
    contrastColor "#0082C9" = Except.ok "#FFFFFF" ∧
    contrastColor "#FFED00" = Except.ok "#000000" := by
  refine ⟨by simp [calculateLuma, h], ?_, ?_, ?_, ?_, ?_, ?_⟩
  · intro hle
    simp only [contrastColor, calculateLuma, h]
    rw [if_neg (not_lt.mpr hle)]
  · intro hgt
    simp only [contrastColor, calculateLuma, h]
    rw [if_pos hgt]
  · have h1 : hexToRGB "#FFFFFF" = some (255, 255, 255) := by decide
    simp only [contrastColor, calculateLuma, h1]
    norm_num
  · have h1 : hexToRGB "#000000" = some (0, 0, 0) := by decide
    simp only [contrastColor, calculateLuma, h1]
    norm_num
  · have h1 : hexToRGB "#0082C9" = some (0, 130, 201) := by decide
    simp only [contrastColor, calculateLuma, h1]
    norm_num
  · have h1 : hexToRGB "#FFED00" = some (255, 237, 0) := by decide
    simp only [contrastColor, calculateLuma, h1]
    norm_num

/-- C3 witness: the rule applied at the concrete color #0082C9. -/
theorem contrast_rule_witness :
    hexToRGB "#0082C9" = some (0, 130, 201) ∧
    contrastColor "#0082C9" = Except.ok "#FFFFFF" :=
  ⟨by decide, (contrast_rule "#0082C9" 0 130 201 (by decide)).2.2.2.2.2.1⟩

/-- C3 counterexample: #fff is a well-formed hex color in the sense the
specification defines (three digits allowed), yet the contrast helper
raises a TypeError on it instead of answering black or white, because the
decoding regex only accepts six digits. -/
theorem contrast_fails_on_three_digit :
    specWellFormedHex "#fff" = true ∧
    contrastColor "#fff" = Except.error JsError.typeError := by
  refine ⟨by decide, ?_⟩
  have h1 : hexToRGB "#fff" = none := by decide
  simp [contrastColor, calculateLuma, h1]

/-- C4 (amended to six-digit inputs): every string of six hex digits,
case-insensitive with an optional leading hash, decodes to three 8-bit
channel values; three-digit colors do not decode. -/
theorem hexToRGB_decodes_six_digit (s : String) (h : specWellFormedHex6 s = true) :
    ∃ r g b, hexToRGB s = some (r, g, b) ∧ r ≤ 255 ∧ g ≤ 255 ∧ b ≤ 255 := by
  unfold specWellFormedHex6 at h
  rw [Bool.and_eq_true, beq_iff_eq] at h
  obtain ⟨hlen, hall⟩ := h
  unfold hexToRGB
  obtain ⟨t, ht⟩ : ∃ t, stripHash s.data = t := ⟨_, rfl⟩
  rw [ht] at hlen hall ⊢
  rcases t with _ | ⟨c1, _ | ⟨c2, _ | ⟨c3, _ | ⟨c4, _ | ⟨c5, _ | ⟨c6, _ | ⟨c7, t⟩⟩⟩⟩⟩⟩⟩ <;>
    simp only [List.length_cons, List.length_nil] at hlen <;> try omega
  simp only [List.all_cons, List.all_nil, Bool.and_true, Bool.and_eq_true] at hall
  obtain ⟨h1, h2, h3, h4, h5, h6⟩ := hall
  refine ⟨16 * hexVal c1 + hexVal c2, 16 * hexVal c3 + hexVal c4,
    16 * hexVal c5 + hexVal c6, ?_, ?_, ?_, ?_⟩
  · dsimp only
    rw [if_pos]
    simp [h1, h2, h3, h4, h5, h6]
  · have := hexVal_le_15 c1 h1
    have := hexVal_le_15 c2 h2
    omega
  · have := hexVal_le_15 c3 h3
    have := hexVal_le_15 c4 h4
    omega
  · have := hexVal_le_15 c5 h5
    have := hexVal_le_15 c6 h6
    omega

/-- C4 witness: a mixed-case six-digit color decodes. -/
theorem hexToRGB_decodes_six_digit_witness :
    specWellFormedHex6 "#00Ff7c" = true ∧
    (∃ r g b, hexToRGB "#00Ff7c" = some (r, g, b) ∧ r ≤ 255 ∧ g ≤ 255 ∧ b ≤ 255) :=
  ⟨by decide, hexToRGB_decodes_six_digit "#00Ff7c" (by decide)⟩

/-- C4 counterexample: #abc is a well-formed three-digit hex color, yet
hexToRGB returns null on it, so the decoder does not accept every
well-formed 3-digit or 6-digit hex string. -/
theorem hexToRGB_rejects_three_digit :
    specWellFormedHex "#abc" = true ∧ hexToRGB "#abc" = none := by
  exact ⟨by decide, by decide⟩

/-- C5 (amended): for every string the hex pattern rejects, hexToRGB does
return null; calculateLuma then raises a TypeError — in JavaScript,
destructuring the null return throws — rather than failing silently with a
NaN result, and the error propagates to the contrast helper. -/
theorem luma_error_on_malformed :
    (∀ s : String, specWellFormedHex6 s = false → hexToRGB s = none) ∧
    (∀ s : String, hexToRGB s = none →
      calculateLuma s = Except.error JsError.typeError ∧
      contrastColor s = Except.error JsError.typeError) := by
  constructor
  · intro s h
    cases hx : hexToRGB s with
    | none => rfl
    | some v =>
      obtain ⟨r, g, b⟩ := v
      obtain ⟨c1, c2, c3, c4, c5, c6, ht, h1, h2, h3, h4, h5, h6, _, _, _⟩ :=
        hexToRGB_some_elim s r g b hx
      have hw : specWellFormedHex6 s = true := by
        unfold specWellFormedHex6
        rw [ht]
        simp [h1, h2, h3, h4, h5, h6]
      rw [hw] at h
      exact Bool.noConfusion h
  · intro s h
    exact ⟨by simp [calculateLuma, h], by simp [contrastColor, calculateLuma, h]⟩

/-- C5 counterexample: on the malformed input "zzz" the decoder returns
null as the claim states, but calculateLuma raises a TypeError instead of
yielding a silent non-numeric result. -/
theorem luma_raises_on_zzz :
    hexToRGB "zzz" = none ∧ calculateLuma "zzz" = Except.error JsError.typeError := by
  refine ⟨by decide, ?_⟩
  simp [calculateLuma, show hexToRGB "zzz" = none from by decide]

/-! ## Round-trip re-encoding (C7)

The repository has no hex encoder; the round-trip property of the spec
needs one, so it is modelled from the spec below. -/

/-- Modelled from the spec: the lowercase hex character of one digit value,
as used when re-encoding a channel. -/
def toHexChar (n : Nat) : Char :=
  if n < 10 then Char.ofNat (48 + n) else Char.ofNat (87 + n)

/-- Modelled from the spec: lowercasing one character of a hex color
(uppercase ASCII shifts by 32, all else is unchanged). -/
def lowerHexChar (c : Char) : Char :=
  if 65 ≤ c.toNat ∧ c.toNat ≤ 90 then Char.ofNat (c.toNat + 32) else c

/-- Modelled from the spec: re-encoding decoded R, G, B channels as a
lowercase six-digit hex color with a leading hash. -/
def rgbToHex (r g b : Nat) : String :=
  String.mk ['#', toHexChar (r / 16), toHexChar (r % 16), toHexChar (g / 16),
    toHexChar (g % 16), toHexChar (b / 16), toHexChar (b % 16)]

/-- Modelled from the spec: the normalized form of a hex color — lowercase
digits and a leading hash. -/
def normalizeHex (s : String) : String :=
  String.mk ('#' :: (stripHash s.data).map lowerHexChar)

lemma toHexChar_hexVal (c : Char) (h : isHexDigit c = true) :
    toHexChar (hexVal c) = lowerHexChar c := by
  unfold isHexDigit at h
  simp only [Bool.or_eq_true, Bool.and_eq_true, decide_eq_true_eq] at h
  rcases h with (⟨h1, h2⟩ | ⟨h1, h2⟩) | ⟨h1, h2⟩
  · have hv : hexVal c = c.toNat - 48 := by
      unfold hexVal
      rw [if_pos (by omega)]
    rw [hv]
    unfold toHexChar lowerHexChar
    rw [if_pos (by omega), if_neg (by omega)]
    have harg : 48 + (c.toNat - 48) = c.toNat := by omega
    rw [harg, Char.ofNat_toNat]
  · have hv : hexVal c = c.toNat - 87 := by
      unfold hexVal
      rw [if_neg (by omega), if_pos (by omega)]
    rw [hv]
    unfold toHexChar lowerHexChar
    rw [if_neg (by omega), if_neg (by omega)]
    have harg : 87 + (c.toNat - 87) = c.toNat := by omega
    rw [harg, Char.ofNat_toNat]
  · have hv : hexVal c = c.toNat - 55 := by
      unfold hexVal
      rw [if_neg (by omega), if_neg (by omega)]
    rw [hv]
    unfold toHexChar lowerHexChar
    rw [if_neg (by omega), if_pos (by omega)]
    have harg : 87 + (c.toNat - 55) = c.toNat + 32 := by omega
    rw [harg]

/-- C7 (amended to six-digit inputs): whenever the decoder accepts a hex
string, re-encoding the decoded channels reproduces the input normalized
to lowercase six-digit form; three-digit inputs do not decode at all. -/
theorem decode_reencode_roundtrip (s : String) (r g b : Nat)
    (h : hexToRGB s = some (r, g, b)) :
    rgbToHex r g b = normalizeHex s := by
  obtain ⟨c1, c2, c3, c4, c5, c6, ht, h1, h2, h3, h4, h5, h6, hr, hg, hb⟩ :=
    hexToRGB_some_elim s r g b h
  subst hr hg hb
  unfold rgbToHex normalizeHex
  rw [ht]
  simp only [List.map_cons, List.map_nil]
  have e1 : (16 * hexVal c1 + hexVal c2) / 16 = hexVal c1 := by
    have := hexVal_le_15 c2 h2
    omega
  have e2 : (16 * hexVal c1 + hexVal c2) % 16 = hexVal c2 := by
    have := hexVal_le_15 c2 h2
    omega
  have e3 : (16 * hexVal c3 + hexVal c4) / 16 = hexVal c3 := by
    have := hexVal_le_15 c4 h4
    omega
  have e4 : (16 * hexVal c3 + hexVal c4) % 16 = hexVal c4 := by
    have := hexVal_le_15 c4 h4
    omega
  have e5 : (16 * hexVal c5 + hexVal c6) / 16 = hexVal c5 := by
    have := hexVal_le_15 c6 h6
    omega
  have e6 : (16 * hexVal c5 + hexVal c6) % 16 = hexVal c6 := by
    have := hexVal_le_15 c6 h6
    omega
  rw [e1, e2, e3, e4, e5, e6, toHexChar_hexVal c1 h1, toHexChar_hexVal c2 h2,
    toHexChar_hexVal c3 h3, toHexChar_hexVal c4 h4, toHexChar_hexVal c5 h5,
    toHexChar_hexVal c6 h6]

/-- C7 witness: the round trip at the concrete color #0082C9. -/
theorem decode_reencode_roundtrip_witness :
    hexToRGB "#0082C9" = some (0, 130, 201) ∧
    rgbToHex 0 130 201 = normalizeHex "#0082C9" :=
  ⟨by decide, decode_reencode_roundtrip "#0082C9" 0 130 201 (by decide)⟩

/-- C7 counterexample: the three-digit color #AbC is well-formed per the
spec, but decoding returns null, so no re-encoding of decoded channels can
reproduce it. -/
theorem roundtrip_fails_on_three_digit :
    specWellFormedHex "#AbC" = true ∧ hexToRGB "#AbC" = none :=
  ⟨by decide, by decide⟩

/-! ## NcColorPicker interaction methods

Source:
  pickColor(color) \x7b
    if (typeof color !== "string") \x7b color = this.currentColor.hex \x7d
    this.currentColor = color
    this.$emit("update:value", color)
    this.$emit("input", color)
  \x7d
  handleConfirm() \x7b
    this.$emit("submit", this.currentColor)
    this.handleClose()
    this.advanced = false
  \x7d
  handleClose() \x7b
    this.$emit("close")
    this.$emit("update:open", false)
  \x7d
-/

/-- The JavaScript values the picker handles: hex strings, color objects
from the spectrum picker (carrying a hex field), booleans, and undefined. -/
inductive JsVal
  | str (s : String)
  | colorObj (hex : String)
  | boolean (b : Bool)
  | undef
deriving DecidableEq, Repr

/-- The component state the methods touch. -/
structure PickerState where
  currentColor : JsVal
  advanced : Bool
deriving DecidableEq, Repr

/-- One emitted Vue event: its name and its payload (undefined when the
source calls $emit with no payload). -/
structure Emission where
  event : String
  payload : JsVal
deriving DecidableEq, Repr

/-- The JavaScript test `typeof v === "string"`. -/
def jsTypeofString : JsVal → Bool
  | JsVal.str _ => true
  | _ => false

/-- JavaScript property access `.hex`: present on a color object; reading
it off a primitive gives undefined; reading it off undefined throws. -/
def jsGetHex : JsVal → Except JsError JsVal
  | JsVal.colorObj h => Except.ok (JsVal.str h)
  | JsVal.str _ => Except.ok JsVal.undef
  | JsVal.boolean _ => Except.ok JsVal.undef
  | JsVal.undef => Except.error JsError.typeError

/-- Embedding of `pickColor`: a non-string argument is replaced by the hex
field of the current color, then the state is updated and the two events
are emitted with that value. -/
def pickColor (color : JsVal) (st : PickerState) :
    Except JsError (PickerState × List Emission) :=
  match (if jsTypeofString color then Except.ok color else jsGetHex st.currentColor :
      Except JsError JsVal) with
  | Except.error e => Except.error e
  | Except.ok c =>
    Except.ok ({ st with currentColor := c },
      [⟨"update:value", c⟩, ⟨"input", c⟩])

/-- Embedding of `handleClose`: emit close, then update:open with false. -/
def handleClose (st : PickerState) : PickerState × List Emission :=
  (st, [⟨"close", JsVal.undef⟩, ⟨"update:open", JsVal.boolean false⟩])

/-- Embedding of `handleConfirm`: emit submit with the current color, run
handleClose, then leave the advanced view. -/
def handleConfirm (st : PickerState) : PickerState × List Emission :=
  let closed := handleClose st
  ({ closed.1 with advanced := false }, ⟨"submit", st.currentColor⟩ :: closed.2)

/-! ## Claim theorems: picker interaction -/

/-- C9: a string argument becomes the current color and is emitted on both
update:value and input unchanged; a non-string argument is replaced by the
hex field of the current color object, which is stored and emitted on both
events instead. -/
theorem pickColor_spec :
    (∀ (s : String) (st : PickerState),
      pickColor (JsVal.str s) st =
        Except.ok ({ st with currentColor := JsVal.str s },
          [⟨"update:value", JsVal.str s⟩, ⟨"input", JsVal.str s⟩])) ∧
    (∀ (v : JsVal) (h : String) (st : PickerState),
      jsTypeofString v = false → st.currentColor = JsVal.colorObj h →
      pickColor v st =
        Except.ok ({ st with currentColor := JsVal.str h },
          [⟨"update:value", JsVal.str h⟩, ⟨"input", JsVal.str h⟩])) := by
  constructor
  · intro s st
    rfl
  · intro v h st hv hc
    simp only [pickColor, hv, Bool.false_eq_true, if_false, hc, jsGetHex]

/-- C10: handleConfirm emits submit carrying the selected color, then close
and update:open false, and clears the advanced flag, so after every confirm
the picker shows the simple view. -/
theorem handleConfirm_spec :
    ∀ st : PickerState,
      handleConfirm st =
        ({ st with advanced := false },
          [⟨"submit", st.currentColor⟩, ⟨"close", JsVal.undef⟩,
            ⟨"update:open", JsVal.boolean false⟩]) ∧
      (handleConfirm st).1.advanced = false := by
  intro st
  exact ⟨rfl, rfl⟩

end NextcloudVue
